import Mathlib

/-!
Shallow embedding of `src/tools/lexmount_browser.py` (the Lexmount Browser
HTTP client).  Every operation of the client performs one or two HTTP
requests through the `requests` library; we model the network as an abstract
function `net : HttpRequest → HttpOutcome` and each Python method as a pure
Lean function of `net`.  Python exceptions become an explicit `PyErr` error
type threaded through `Except`.  The `urllib.parse` functions used by the
source (`urljoin`, `urlparse(...).path`) are embedded below on `List Char`.
-/

/-- JSON values as produced by `response.json()`.  Numbers are modelled as
integers (no endpoint of this client uses fractional numbers).  An object
keeps its textual key order; duplicate keys resolve last-wins, exactly as
`json.loads` builds a Python dict. -/
inductive Json where
  | null : Json
  | bool : Bool → Json
  | num : Int → Json
  | str : String → Json
  | arr : List Json → Json
  | obj : List (String × Json) → Json

/-- Python exception values raised by the client.
`requestException` covers `requests.exceptions.RequestException` and its
subclasses (transport failures and the `HTTPError` of `raise_for_status`) —
what the specification calls `TransportError`.
`valueError` covers the `ValueError`s raised in `Sessions.create` — the
spec name `InvalidResponseError`.
`jsonDecodeError` models the `json.JSONDecodeError` raised by
`response.json()` on a body that is not valid JSON — the spec name
`MalformedResponseError`; it is a `ValueError` subclass and, as in
`requests` before 2.27 (whose behaviour the spec name error taxonomy
presupposes), not a `RequestException`.
`attributeError` and `typeError` model the uncaught `AttributeError` /
`TypeError` raised when a JSON body is not an object (`data.get` on a
non-dict) or a field value has an unexpected type (`urlparse` on a
non-string). -/
inductive PyErr where
  | requestException : String → PyErr
  | valueError : String → PyErr
  | jsonDecodeError : String → PyErr
  | attributeError : String → PyErr
  | typeError : String → PyErr

/-- Membership of the dynamic class check `except requests.exceptions.RequestException`. -/
def PyErr.isRequestException : PyErr → Bool
  | .requestException _ => true
  | _ => false

/-- Membership of the dynamic class check `except (KeyError, ValueError)`:
`json.JSONDecodeError` is a `ValueError` subclass. -/
def PyErr.isValueError : PyErr → Bool
  | .valueError _ => true
  | .jsonDecodeError _ => true
  | _ => false

/-- The message a caught Python exception contributes to an f-string. -/
def PyErr.msg : PyErr → String
  | .requestException m => m
  | .valueError m => m
  | .jsonDecodeError m => m
  | .attributeError m => m
  | .typeError m => m

/-- One HTTP request as issued through `requests.get/post/delete`:
method, full URL, query parameters, headers, and optional JSON body. -/
structure HttpRequest where
  method : String
  url : String
  params : List (String × Json)
  headers : List (String × String)
  jsonBody : Option Json

/-- What the network does with a request: either a transport-level failure
(DNS, connection, timeout — `requests` raises a `RequestException` carrying
a message), or a settled HTTP response with a status code and the JSON
parse of its body (`none` when the body is not valid JSON). -/
inductive HttpOutcome where
  | netErr : String → HttpOutcome
  | resp : Nat → Option Json → HttpOutcome

/-- Truthiness of a Python value decoded from JSON (`if not session_id`,
`if full_ws_url`). -/
def Json.truthy : Json → Bool
  | .null => false
  | .bool b => b
  | .num n => n != 0
  | .str s => !s.data.isEmpty
  | .arr l => !l.isEmpty
  | .obj l => !l.isEmpty

/-- Last-wins association lookup: `json.loads` builds a dict in which a
duplicated key keeps its last value, and `dict.get` returns `None` (here
`none`) when the key is absent. -/
def lookupLast (kvs : List (String × Json)) (k : String) : Option Json :=
  match kvs with
  | [] => none
  | (k₁, v) :: rest =>
    match lookupLast rest k with
    | some w => some w
    | none => if k₁ == k then some v else none

/-- Python `data.get(key)`: a dict lookup when `data` is an object, an
`AttributeError` on every other value (`int`, `list`, `str`, ... have no
`get`). -/
def Json.dictGet : Json → String → Except PyErr (Option Json)
  | .obj kvs, k => .ok (lookupLast kvs k)
  | _, _ => .error (.attributeError "object has no attribute get")

/-- Message of a `json.JSONDecodeError` (the position details of the real
message depend on the raw bytes, which are not modelled). -/
def jsonDecodeMsg : String := "Expecting value"

/-- Message of the `HTTPError` from `raise_for_status` (the reason phrase
and URL of the real message are not modelled). -/
def httpErrMsg (st : Nat) : String := toString st ++ " Error for url"

/-- The body of `response.raise_for_status()`: raises `HTTPError` (a
`RequestException`) exactly on 4xx and 5xx status codes. -/
def raiseForStatus (st : Nat) : Except PyErr Unit :=
  if 400 ≤ st ∧ st < 600 then .error (.requestException (httpErrMsg st)) else .ok ()

/-- Splits a list of characters at the first character satisfying `stop`:
returns (prefix before it, remainder starting with it). -/
def spanUntil (stop : Char → Bool) : List Char → List Char × List Char
  | [] => ([], [])
  | x :: xs =>
    if stop x then ([], x :: xs)
    else
      let (a, b) := spanUntil stop xs
      (x :: a, b)

/-- Python `url.split(c, 1)`: `some (before, after)` at the first
occurrence of `c`, `none` when `c` does not occur. -/
def splitOnFirst (c : Char) (l : List Char) : Option (List Char × List Char) :=
  match spanUntil (fun x => x == c) l with
  | (_, []) => none
  | (a, _ :: b) => some (a, b)

/-- Everything before the first occurrence of `c` (the whole list when `c`
does not occur) — the `url, fragment = url.split(sep, 1)` steps of
`urlsplit` as they affect the path. -/
def cutAt (c : Char) (l : List Char) : List Char :=
  (spanUntil (fun x => x == c) l).1

/-- Characters allowed in a URL scheme after the first
(`scheme_chars` of `urllib.parse`). -/
def schemeChar (c : Char) : Bool :=
  c.isAlphanum || c == '+' || c == '-' || c == '.'

/-- First character of the candidate scheme must be an ASCII letter
(`url[0].isascii() and url[0].isalpha()` in `urlsplit`). -/
def headAlpha : List Char → Bool
  | [] => false
  | c :: _ => c.isAlpha

/-- The scheme-splitting step of `urlsplit`: when the prefix before the
first colon is a nonempty valid scheme, returns (lowercased scheme, rest
after the colon); otherwise no scheme and the input unchanged. -/
def splitSchemeL (l : List Char) : List Char × List Char :=
  match spanUntil (fun x => x == ':') l with
  | (_, []) => ([], l)
  | (pre, _ :: rest) =>
    if headAlpha pre && pre.all schemeChar then (pre.map Char.toLower, rest)
    else ([], l)

/-- A character ending the netloc in `_splitnetloc`. -/
def stopNetloc (c : Char) : Bool := c == '/' || c == '?' || c == '#'

/-- The netloc-splitting step of `urlsplit`: after a leading `//`, the
netloc runs to the first of `/`, `?`, `#`; without a leading `//` there is
no netloc. -/
def splitNetlocL (l : List Char) : List Char × List Char :=
  match l with
  | a :: b :: rest => if a == '/' && b == '/' then spanUntil stopNetloc rest else ([], l)
  | _ => ([], l)

/-- The last segment of a path (everything after the last `/`, the whole
path when it has no `/`) — where `_splitparams` looks for a `;`. -/
def lastSegment (l : List Char) : List Char :=
  ((spanUntil (fun c => c == '/') l.reverse).1).reverse

/-- The `_splitparams` step of `urlparse`: drops a `;params` suffix of the
last path segment. -/
def splitparams (l : List Char) : List Char :=
  match splitOnFirst ';' (lastSegment l) with
  | some (a, _) => l.take (l.length - (lastSegment l).length) ++ a
  | none => l

/-- The `uses_relative` scheme list of `urllib.parse` (CPython 3.11). -/
def usesRelative (scheme : List Char) : Bool :=
  ["", "ftp", "http", "gopher", "nntp", "imap", "wais", "file", "https",
   "shttp", "mms", "prospero", "rtsp", "rtsps", "rtspu", "sftp", "svn",
   "svn+ssh", "ws", "wss"].any (fun s => s.data == scheme)

/-- The `uses_netloc` scheme list of `urllib.parse` (CPython 3.11). -/
def usesNetloc (scheme : List Char) : Bool :=
  ["", "ftp", "http", "gopher", "nntp", "telnet", "imap", "wais", "file",
   "mms", "https", "shttp", "snews", "prospero", "rtsp", "rtsps", "rtspu",
   "rsync", "svn", "svn+ssh", "sftp", "nfs", "git", "git+ssh", "ws",
   "wss"].any (fun s => s.data == scheme)

/-- The `uses_params` scheme list of `urllib.parse` (CPython 3.11):
`urlparse` splits `;params` off the path only for these schemes. -/
def usesParamsList (scheme : List Char) : Bool :=
  ["", "ftp", "hdl", "prospero", "http", "imap", "https", "shttp", "rtsp",
   "rtsps", "rtspu", "sip", "sips", "mms", "sftp",
   "tel"].any (fun s => s.data == scheme)

/-- Everything after the first occurrence of `c` (empty when `c` does not
occur — `urlsplit` leaves the query and fragment empty in that case, and an
empty component is falsy on reassembly, so absent and empty coincide). -/
def afterFirst (c : Char) (l : List Char) : List Char :=
  match (spanUntil (fun x => x == c) l).2 with
  | [] => []
  | _ :: t => t

/-- The `params` component `_splitparams` removes from the last path
segment (empty when there is none). -/
def paramsOf (l : List Char) : List Char :=
  match splitOnFirst ';' (lastSegment l) with
  | some (_, b) => b
  | none => []

/-- Embedding of `urlparse(u).path`: strip the scheme, strip the netloc,
cut the fragment and the query, and split off `;params` exactly when the
scheme is in `uses_params`. -/
def urlparsePath (u : String) : String :=
  let scheme := (splitSchemeL u.data).1
  let r₂ := (splitNetlocL (splitSchemeL u.data).2).2
  let p := cutAt '?' (cutAt '#' r₂)
  ⟨if usesParamsList scheme then splitparams p else p⟩

/-- Python `path.split(sep)` on one character: `''.split` gives `['']`. -/
def splitOnChar (c : Char) : List Char → List (List Char)
  | [] => [[]]
  | x :: xs =>
    let r := splitOnChar c xs
    if x == c then [] :: r
    else
      match r with
      | h :: t => (x :: h) :: t
      | [] => [[x]]

/-- Python `sep.join(parts)` on one character. -/
def joinWith (c : Char) : List (List Char) → List Char
  | [] => []
  | [h] => h
  | h :: t => h ++ c :: joinWith c t

/-- The dot-segment resolution loop of `urljoin`: `..` pops the resolved
path (ignoring the pop on an empty list), `.` is skipped, every other
segment is appended. -/
def resolveSegs (acc : List (List Char)) : List (List Char) → List (List Char)
  | [] => acc
  | seg :: rest =>
    if seg == ['.', '.'] then resolveSegs acc.dropLast rest
    else if seg == ['.'] then resolveSegs acc rest
    else resolveSegs (acc ++ [seg]) rest

/-- Is the last segment `.` or `..` (then `urljoin` appends a trailing
empty segment). -/
def lastIsDotSeg (segs : List (List Char)) : Bool :=
  match segs.getLast? with
  | some s => s == ['.'] || s == ['.', '.']
  | none => false

/-- Embedding of `urljoin(base, ref)` (CPython 3.11) for the shapes this
client uses: every call site passes a `ref` that starts with a single `/`,
so `ref` never carries a scheme or netloc of its own and its path is
nonempty and absolute.  Mirrors the source: the scheme and netloc come from
the base (a base scheme outside `uses_relative` returns `ref` unchanged),
the path of `ref` undergoes dot-segment resolution, and path, `;params`,
`?query` and `#fragment` are reassembled around the base prefix by
`urlunparse`/`urlunsplit`. -/
def urljoin (base ref : String) : String :=
  if base.data.isEmpty then ref
  else if ref.data.isEmpty then base
  else
    let bscheme := (splitSchemeL base.data).1
    let bnetloc := (splitNetlocL (splitSchemeL base.data).2).1
    if usesRelative bscheme = false then ref
    else
      let beforeFrag := cutAt '#' ref.data
      let frag := afterFirst '#' ref.data
      let query := afterFirst '?' beforeFrag
      let pathParams := cutAt '?' beforeFrag
      let params := if usesParamsList bscheme then paramsOf pathParams else []
      let path := if usesParamsList bscheme then splitparams pathParams else pathParams
      let segs := splitOnChar '/' path
      let resolved := resolveSegs [] segs ++ (if lastIsDotSeg segs then [[]] else [])
      let path₂ :=
        match joinWith '/' resolved with
        | [] => ['/']
        | l => l
      let merged := if params.isEmpty then path₂ else path₂ ++ ';' :: params
      let withNet :=
        if !bnetloc.isEmpty ||
            (!bscheme.isEmpty && usesNetloc bscheme && merged.take 2 != ['/', '/']) then
          '/' :: '/' :: bnetloc ++
            (if merged.head? == some '/' then merged else '/' :: merged)
        else merged
      let withScheme := if bscheme.isEmpty then withNet else bscheme ++ ':' :: withNet
      let withQuery := if query.isEmpty then withScheme else withScheme ++ '?' :: query
      ⟨if frag.isEmpty then withQuery else withQuery ++ '#' :: frag⟩

/-- Python `base_url.rstrip(Char.ofNat 47)`: removes every trailing slash. -/
def rstripSlashes (s : String) : String :=
  ⟨(s.data.reverse.dropWhile (fun c => c == '/')).reverse⟩

/-- Does a string end in a slash. -/
def hasTrailingSlash (s : String) : Bool :=
  match s.data.reverse.head? with
  | some c => c == '/'
  | none => false

/-- The client configuration held by the `Browser` facade. -/
structure Browser where
  api_key : String
  base_url : String

/-- The default of the `base_url` parameter of `Browser.__init__`. -/
def defaultBaseUrl : String := "https://freelw.cc"

/-- Embedding of `Browser.__init__`: stores the api key unchanged and the
base url with trailing slashes stripped; performs no request and raises
nothing. -/
def Browser.mkClient (api_key : String) (base_url : String) : Browser :=
  { api_key := api_key, base_url := rstripSlashes base_url }

/-- A session value: the remote id (kept as the JSON value the service
returned, since the source never coerces it) and the resolved debugger URL
path, `none` when the lookup failed or the field was absent or falsy. -/
structure Session where
  id : Json
  webSocketDebuggerUrl : Option String

/-- The GET issued by `Session._get_web_socket_debugger_url`. -/
def wsReq (b : Browser) (sid : Json) : HttpRequest :=
  { method := "GET", url := urljoin b.base_url "/json/version",
    params := [("session_id", sid)], headers := [], jsonBody := none }

/-- The `try` body of `Session._get_web_socket_debugger_url`: GET
`/json/version`, `raise_for_status`, parse JSON, read the
`webSocketDebuggerUrl` field; when it is truthy, `urlparse` it and keep
only the path (a `TypeError` when it is truthy but not a string). -/
def getWsUrlTry (net : HttpRequest → HttpOutcome) (b : Browser) (sid : Json) :
    Except PyErr (Option String) :=
  match net (wsReq b sid) with
  | .netErr m => .error (.requestException m)
  | .resp st body =>
    match raiseForStatus st with
    | .error e => .error e
    | .ok _ =>
      match body with
      | none => .error (.jsonDecodeError jsonDecodeMsg)
      | some data =>
        match data.dictGet "webSocketDebuggerUrl" with
        | .error e => .error e
        | .ok full =>
          match full with
          | some v =>
            if v.truthy then
              match v with
              | .str s => .ok (some (urlparsePath s))
              | _ => .error (.typeError "expected string or bytes-like object")
            else .ok none
          | none => .ok none

/-- Embedding of `Session.__init__`: stores the id, runs the debugger-URL
lookup, and catches only `requests.exceptions.RequestException` from it
(yielding a `none` URL); any other exception propagates.  Also returns the
list of requests issued. -/
def Session.construct (net : HttpRequest → HttpOutcome) (sid : Json) (b : Browser) :
    Except PyErr Session × List HttpRequest :=
  let r : Except PyErr Session :=
    match getWsUrlTry net b sid with
    | .ok w => .ok { id := sid, webSocketDebuggerUrl := w }
    | .error e =>
      if e.isRequestException then .ok { id := sid, webSocketDebuggerUrl := none }
      else .error e
  (r, [wsReq b sid])

/-- The POST issued by `Sessions.create`. -/
def instanceReq (b : Browser) (project_id : String) : HttpRequest :=
  { method := "POST", url := urljoin b.base_url "/instance",
    params := [], headers := [("Content-Type", "application/json")],
    jsonBody :=
      some (.obj [("project_id", .str project_id), ("api_key", .str b.api_key)]) }

/-- The `try` body of `Sessions.create`: POST `/instance`,
`raise_for_status`, parse JSON, read `session_id`; a falsy or absent value
raises `ValueError`, otherwise the `Session` is constructed (whose own
lookup runs inside this `try`). -/
def createTry (net : HttpRequest → HttpOutcome) (b : Browser) (project_id : String) :
    Except PyErr Session × List HttpRequest :=
  let req := instanceReq b project_id
  match net req with
  | .netErr m => (.error (.requestException m), [req])
  | .resp st body =>
    match raiseForStatus st with
    | .error e => (.error e, [req])
    | .ok _ =>
      match body with
      | none => (.error (.jsonDecodeError jsonDecodeMsg), [req])
      | some data =>
        match data.dictGet "session_id" with
        | .error e => (.error e, [req])
        | .ok sidOpt =>
          match sidOpt with
          | some sid =>
            if sid.truthy then
              let (r, tr) := Session.construct net sid b
              (r, req :: tr)
            else (.error (.valueError "No session_id returned from API"), [req])
          | none => (.error (.valueError "No session_id returned from API"), [req])

/-- Embedding of `Sessions.create` including its two `except` clauses:
a `RequestException` is re-raised as
`RequestException(f"Failed to create session: ...")`, a `KeyError` or
`ValueError` as `ValueError(f"Invalid response from API: ...")`, anything
else propagates unchanged. -/
def Sessions.create (net : HttpRequest → HttpOutcome) (b : Browser) (project_id : String) :
    Except PyErr Session × List HttpRequest :=
  let (r, tr) := createTry net b project_id
  match r with
  | .ok s => (.ok s, tr)
  | .error e =>
    if e.isRequestException then
      (.error (.requestException ("Failed to create session: " ++ e.msg)), tr)
    else if e.isValueError then
      (.error (.valueError ("Invalid response from API: " ++ e.msg)), tr)
    else (.error e, tr)

/-- Re-raising wrapper shared by the facade methods: a caught
`RequestException` is re-raised with a context prefix, everything else
propagates unchanged. -/
def wrapRequestException (pre : String) : Except PyErr Json → Except PyErr Json
  | .ok v => .ok v
  | .error e =>
    if e.isRequestException then .error (.requestException (pre ++ e.msg))
    else .error e

/-- The GET issued by `Browser.health_check`. -/
def healthReq (b : Browser) : HttpRequest :=
  { method := "GET", url := urljoin b.base_url "/health",
    params := [], headers := [], jsonBody := none }

/-- The `try` body shared by `health_check` and `get_session_logs`:
issue the GET, `raise_for_status`, return the parsed JSON body. -/
def getJsonTry (net : HttpRequest → HttpOutcome) (req : HttpRequest) : Except PyErr Json :=
  match net req with
  | .netErr m => .error (.requestException m)
  | .resp st body =>
    match raiseForStatus st with
    | .error e => .error e
    | .ok _ =>
      match body with
      | none => .error (.jsonDecodeError jsonDecodeMsg)
      | some data => .ok data

/-- Embedding of `Browser.health_check`. -/
def Browser.health_check (net : HttpRequest → HttpOutcome) (b : Browser) : Except PyErr Json :=
  wrapRequestException "Health check failed: " (getJsonTry net (healthReq b))

/-- The GET issued by `Browser.get_session_logs`. -/
def logsReq (b : Browser) (session_id : String) : HttpRequest :=
  { method := "GET", url := urljoin b.base_url ("/logs/" ++ session_id),
    params := [], headers := [], jsonBody := none }

/-- Embedding of `Browser.get_session_logs`. -/
def Browser.get_session_logs (net : HttpRequest → HttpOutcome) (b : Browser)
    (session_id : String) : Except PyErr Json :=
  wrapRequestException "Failed to get session logs: " (getJsonTry net (logsReq b session_id))

/-- The DELETE issued by `Browser.delete_session`. -/
def deleteReq (b : Browser) (session_id : String) : HttpRequest :=
  { method := "DELETE", url := urljoin b.base_url "/instance",
    params := [("session_id", .str session_id)], headers := [], jsonBody := none }

/-- Embedding of `Browser.delete_session`: the body is never parsed; the
method returns `true` whenever neither the request nor `raise_for_status`
raised, and otherwise re-raises the `RequestException` with its context
prefix. -/
def Browser.delete_session (net : HttpRequest → HttpOutcome) (b : Browser)
    (session_id : String) : Except PyErr Bool :=
  match net (deleteReq b session_id) with
  | .netErr m =>
    .error (.requestException ("Failed to delete session: " ++ m))
  | .resp st _ =>
    match raiseForStatus st with
    | .error e =>
      .error (.requestException ("Failed to delete session: " ++ e.msg))
    | .ok _ => .ok true

/-- A network that answers every request the same way. -/
def constNet (o : HttpOutcome) : HttpRequest → HttpOutcome := fun _ => o

/-- A network that answers the POST of `Sessions.create` with `po` and
every other request (the GET of the debugger-URL lookup) with `go`. -/
def postSplitNet (po go : HttpOutcome) : HttpRequest → HttpOutcome :=
  fun r => if r.method == "POST" then po else go

/-- A concrete client used to evaluate the theorems on closed inputs. -/
def exampleClient : Browser := Browser.mkClient "testkey" "https://freelw.cc"

/-- A concrete `/json/version` body carrying a full WebSocket URL. -/
def wsVersionBody : Json :=
  .obj [("webSocketDebuggerUrl", .str "ws://host:1234/devtools/page/ABC")]

/-- A concrete `/instance` creation body carrying a session id. -/
def createdBody : Json := .obj [("session_id", .str "abc")]

theorem spanUntil_nostop (stop : Char → Bool) :
    ∀ l : List Char, (∀ x ∈ l, stop x = false) → spanUntil stop l = (l, []) := by
  intro l
  induction l with
  | nil => intro _; rfl
  | cons x xs ih =>
    intro h
    have hx : stop x = false := h x (List.mem_cons_self x xs)
    have hxs := ih (fun y hy => h y (List.mem_cons_of_mem x hy))
    simp [spanUntil, hx, hxs]

theorem spanUntil_stop (stop : Char → Bool) (c : Char) (b : List Char) :
    ∀ a : List Char, (∀ x ∈ a, stop x = false) → stop c = true →
      spanUntil stop (a ++ c :: b) = (a, c :: b) := by
  intro a
  induction a with
  | nil => intro _ hc; simp [spanUntil, hc]
  | cons x xs ih =>
    intro h hc
    have hx : stop x = false := h x (List.mem_cons_self x xs)
    have hxs := ih (fun y hy => h y (List.mem_cons_of_mem x hy)) hc
    simp [spanUntil, hx, hxs]

theorem mem_spanUntil_fst (stop : Char → Bool) :
    ∀ l x, x ∈ (spanUntil stop l).1 → x ∈ l := by
  intro l
  induction l with
  | nil => intro x hx; simp [spanUntil] at hx
  | cons y ys ih =>
    intro x hx
    by_cases hy : stop y
    · simp [spanUntil, hy] at hx
    · simp [spanUntil, hy] at hx
      rcases hx with h | h
      · exact h ▸ List.mem_cons_self y ys
      · exact List.mem_cons_of_mem y (ih x h)

theorem cutAt_nomem (c : Char) (l : List Char)
    (h : ∀ x ∈ l, (x == c) = false) : cutAt c l = l := by
  simp [cutAt, spanUntil_nostop _ l h]

theorem cutAt_mem (c : Char) (a b : List Char)
    (h : ∀ x ∈ a, (x == c) = false) : cutAt c (a ++ c :: b) = a := by
  simp [cutAt, spanUntil_stop _ c b a h (by simp)]

theorem splitOnFirst_nomem (c : Char) (l : List Char)
    (h : ∀ x ∈ l, (x == c) = false) : splitOnFirst c l = none := by
  simp [splitOnFirst, spanUntil_nostop _ l h]

theorem mem_lastSegment (l : List Char) (x : Char) (h : x ∈ lastSegment l) : x ∈ l := by
  unfold lastSegment at h
  rw [List.mem_reverse] at h
  have := mem_spanUntil_fst _ _ _ h
  rwa [List.mem_reverse] at this

theorem splitparams_nomem (l : List Char)
    (h : ∀ x ∈ l, (x == ';') = false) : splitparams l = l := by
  have hseg : ∀ x ∈ lastSegment l, (x == ';') = false :=
    fun x hx => h x (mem_lastSegment l x hx)
  simp [splitparams, splitOnFirst_nomem _ _ hseg]

theorem dropWhile_head_false (p : Char → Bool) :
    ∀ l c, (List.dropWhile p l).head? = some c → p c = false := by
  intro l
  induction l with
  | nil => intro c h; simp [List.dropWhile] at h
  | cons x xs ih =>
    intro c h
    by_cases hx : p x
    · rw [List.dropWhile_cons_of_pos hx] at h
      exact ih c h
    · rw [List.dropWhile_cons_of_neg hx] at h
      simp at h
      cases h
      simpa using hx

theorem rstripSlashes_append_slash (u : String) :
    rstripSlashes (u ++ "/") = rstripSlashes u := by
  unfold rstripSlashes
  rw [String.data_append]
  have : ("/" : String).data = ['/'] := rfl
  rw [this, List.reverse_append]
  simp [List.dropWhile_cons]

theorem hasTrailingSlash_rstrip (u : String) :
    hasTrailingSlash (rstripSlashes u) = false := by
  unfold hasTrailingSlash rstripSlashes
  simp only [List.reverse_reverse]
  cases h : (u.data.reverse.dropWhile (fun c => c == '/')).head? with
  | none => simp [h]
  | some c =>
    have := dropWhile_head_false _ _ _ h
    simp [h, this]

/-- C8: constructing the client stores a configuration whose baseUrl is the
given baseUrl with the trailing slash stripped — a baseUrl ending in a
slash and the same string without it yield the same stored configuration,
and the stored baseUrl never ends in a slash — and the api key is stored
unchanged.  The configuration is immutable afterwards by construction: in
this embedding every operation is a pure function that takes the `Browser`
value as read-only input and returns no modified configuration. -/
theorem claim_C8 : ∀ apiKey u : String,
    Browser.mkClient apiKey (u ++ "/") = Browser.mkClient apiKey u ∧
    hasTrailingSlash (Browser.mkClient apiKey u).base_url = false ∧
    (Browser.mkClient apiKey u).api_key = apiKey := by
  intro k u
  refine ⟨?_, ?_, rfl⟩
  · unfold Browser.mkClient
    rw [rstripSlashes_append_slash]
  · exact hasTrailingSlash_rstrip u

/-- C10: constructing the client facade always succeeds for every apiKey
and baseUrl (in this embedding `Browser.mkClient` is a total function that
does not take the network as an argument, so it can perform no HTTP request
and raise no error); the stored configuration is exactly the api key and
the slash-normalized baseUrl with no further validation; and a problem with
the baseUrl surfaces only at the first request, as the transport error of
that request. -/
theorem claim_C10 : ∀ apiKey baseUrl : String,
    (Browser.mkClient apiKey baseUrl).api_key = apiKey ∧
    (Browser.mkClient apiKey baseUrl).base_url = rstripSlashes baseUrl ∧
    ∀ (net : HttpRequest → HttpOutcome) (m : String),
      net (healthReq (Browser.mkClient apiKey baseUrl)) = .netErr m →
      Browser.health_check net (Browser.mkClient apiKey baseUrl) =
        .error (.requestException ("Health check failed: " ++ m)) := by
  intro k u
  refine ⟨rfl, rfl, ?_⟩
  intro net m h
  simp [Browser.health_check, getJsonTry, h, wrapRequestException,
    PyErr.isRequestException, PyErr.msg]

/-- C10 witness: the constructor succeeds on an empty api key and a
malformed base url, and the failure surfaces at the first request. -/
theorem claim_C10_witness :
    (Browser.mkClient "" "not a url//").api_key = "" ∧
    (Browser.mkClient "" "not a url//").base_url = rstripSlashes "not a url//" ∧
    Browser.health_check (constNet (.netErr "conn refused")) (Browser.mkClient "" "not a url//") =
      .error (.requestException ("Health check failed: " ++ "conn refused")) := by
  obtain ⟨h1, h2, h3⟩ := claim_C10 "" "not a url//"
  exact ⟨h1, h2, h3 (constNet (.netErr "conn refused")) "conn refused" rfl⟩

theorem raiseForStatus_ok (st : Nat) (h : ¬(400 ≤ st ∧ st < 600)) :
    raiseForStatus st = .ok () := by
  unfold raiseForStatus
  rw [if_neg h]

theorem raiseForStatus_err (st : Nat) (h : 400 ≤ st ∧ st < 600) :
    raiseForStatus st = .error (.requestException (httpErrMsg st)) := by
  unfold raiseForStatus
  rw [if_pos h]

/-- C2: when the POST to `/instance` returns a 2xx response whose JSON
object body omits the `session_id` field or maps it to the empty string,
`Sessions.create` fails with
`ValueError("Invalid response from API: No session_id returned from API")`
— the error the spec calls `InvalidResponseError` — and returns no
Session. -/
theorem claim_C2 (net : HttpRequest → HttpOutcome) (b : Browser) (pid : String)
    (st : Nat) (kvs : List (String × Json))
    (hnet : net (instanceReq b pid) = .resp st (some (.obj kvs)))
    (hst : 200 ≤ st ∧ st < 300)
    (hsid : lookupLast kvs "session_id" = none ∨
            lookupLast kvs "session_id" = some (.str "")) :
    (Sessions.create net b pid).1 =
      .error (.valueError "Invalid response from API: No session_id returned from API") := by
  have hrs : raiseForStatus st = .ok () := raiseForStatus_ok st (by omega)
  rcases hsid with h | h
  · simp [Sessions.create, createTry, hnet, hrs, Json.dictGet, h,
      PyErr.isRequestException, PyErr.isValueError, PyErr.msg]
  · simp [Sessions.create, createTry, hnet, hrs, Json.dictGet, h, Json.truthy,
      PyErr.isRequestException, PyErr.isValueError, PyErr.msg]

/-- C2 witness: a 200 response whose object body has no `session_id`. -/
theorem claim_C2_witness :
    (Sessions.create (constNet (.resp 200 (some (.obj [])))) exampleClient "proj").1 =
      .error (.valueError "Invalid response from API: No session_id returned from API") :=
  claim_C2 (constNet (.resp 200 (some (.obj [])))) exampleClient "proj" 200 []
    rfl (by omega) (Or.inl rfl)

/-- C9: when the `/json/version` lookup returns a 2xx JSON object whose
`webSocketDebuggerUrl` is falsy (empty string, null, 0, false, empty array
or object), the constructed Session stores `none`, exactly as if the field
were absent, and construction succeeds. -/
theorem claim_C9 (net : HttpRequest → HttpOutcome) (b : Browser) (sid : Json)
    (st : Nat) (kvs : List (String × Json)) (j : Json)
    (hnet : net (wsReq b sid) = .resp st (some (.obj kvs)))
    (hst : 200 ≤ st ∧ st < 300)
    (hlook : lookupLast kvs "webSocketDebuggerUrl" = some j)
    (hfalsy : j.truthy = false) :
    Session.construct net sid b = (.ok ⟨sid, none⟩, [wsReq b sid]) := by
  have hrs : raiseForStatus st = .ok () := raiseForStatus_ok st (by omega)
  simp [Session.construct, getWsUrlTry, hnet, hrs, Json.dictGet, hlook, hfalsy]

/-- C9 witness: a 200 response mapping `webSocketDebuggerUrl` to the empty
string stores `none`. -/
theorem claim_C9_witness :
    Session.construct
        (constNet (.resp 200 (some (.obj [("webSocketDebuggerUrl", .str "")]))))
        (.str "s1") exampleClient =
      (.ok ⟨.str "s1", none⟩, [wsReq exampleClient (.str "s1")]) :=
  claim_C9 (constNet (.resp 200 (some (.obj [("webSocketDebuggerUrl", .str "")]))))
    exampleClient (.str "s1") 200 [("webSocketDebuggerUrl", .str "")] (.str "")
    rfl (by omega) rfl rfl

/-- C4 counterexample: the claim reads every non-2xx status as a failed
lookup that leaves the debugger URL null, but `raise_for_status` raises
only on 4xx/5xx: on a 304 response carrying a `webSocketDebuggerUrl` the
code stores the path, not null. -/
theorem claim_C4_counterexample :
    Session.construct (constNet (.resp 304 (some wsVersionBody))) (.str "s1") exampleClient =
      (.ok ⟨.str "s1", some "/devtools/page/ABC"⟩, [wsReq exampleClient (.str "s1")]) := by
  rfl

/-- C4 amended: when the `/json/version` lookup fails with a network error
or a 4xx/5xx status (the statuses `raise_for_status` raises on), or when it
returns a JSON object without the `webSocketDebuggerUrl` field at a
non-raising status, session construction still succeeds, no error
propagates, and the stored `webSocketDebuggerUrl` is null. -/
theorem claim_C4_amended (net : HttpRequest → HttpOutcome) (b : Browser) (sid : Json)
    (h : (∃ m, net (wsReq b sid) = .netErr m) ∨
         (∃ st body, net (wsReq b sid) = .resp st body ∧ 400 ≤ st ∧ st < 600) ∨
         (∃ st kvs, net (wsReq b sid) = .resp st (some (.obj kvs)) ∧
            ¬(400 ≤ st ∧ st < 600) ∧
            lookupLast kvs "webSocketDebuggerUrl" = none)) :
    Session.construct net sid b = (.ok ⟨sid, none⟩, [wsReq b sid]) := by
  rcases h with ⟨m, hm⟩ | ⟨st, body, hr, hst1, hst2⟩ | ⟨st, kvs, hr, hst, hlook⟩
  · simp [Session.construct, getWsUrlTry, hm, PyErr.isRequestException]
  · have hrs := raiseForStatus_err st ⟨hst1, hst2⟩
    simp [Session.construct, getWsUrlTry, hr, hrs, PyErr.isRequestException]
  · have hrs := raiseForStatus_ok st hst
    simp [Session.construct, getWsUrlTry, hr, hrs, Json.dictGet, hlook]

/-- C4 witness: a simulated network error leaves the URL null and the
construction succeeding. -/
theorem claim_C4_witness :
    Session.construct (constNet (.netErr "conn refused")) (.str "s1") exampleClient =
      (.ok ⟨.str "s1", none⟩, [wsReq exampleClient (.str "s1")]) :=
  claim_C4_amended (constNet (.netErr "conn refused")) exampleClient (.str "s1")
    (Or.inl ⟨"conn refused", rfl⟩)

/-- C5 counterexample: the claim says true is returned only in the 2xx
case, but `raise_for_status` raises only on 4xx/5xx: a final 304 response
also makes `delete_session` return true. -/
theorem claim_C5_counterexample :
    Browser.delete_session (constNet (.resp 304 none)) exampleClient "s1" = .ok true := by
  rfl

/-- C5 amended: `delete_session` returns true when the DELETE completes
with a 2xx status, and raises the wrapped `RequestException` (the spec name
`TransportError`) on a 4xx/5xx status or a network failure; on a settled
response, true is returned exactly when the status is outside 400–599
(which includes the 2xx case but also e.g. 304). -/
theorem claim_C5_amended (net : HttpRequest → HttpOutcome) (b : Browser) (sid : String) :
    (∀ st body, net (deleteReq b sid) = .resp st body →
       (Browser.delete_session net b sid = .ok true ↔ ¬(400 ≤ st ∧ st < 600))) ∧
    (∀ st body, net (deleteReq b sid) = .resp st body → 400 ≤ st ∧ st < 600 →
       Browser.delete_session net b sid =
         .error (.requestException ("Failed to delete session: " ++ httpErrMsg st))) ∧
    (∀ m, net (deleteReq b sid) = .netErr m →
       Browser.delete_session net b sid =
         .error (.requestException ("Failed to delete session: " ++ m))) := by
  refine ⟨?_, ?_, ?_⟩
  · intro st body h
    by_cases hc : 400 ≤ st ∧ st < 600
    · have hrs := raiseForStatus_err st hc
      simp [Browser.delete_session, h, hrs, hc]
    · have hrs := raiseForStatus_ok st hc
      simp [Browser.delete_session, h, hrs, hc]
  · intro st body h hc
    have hrs := raiseForStatus_err st hc
    simp [Browser.delete_session, h, hrs, PyErr.msg]
  · intro m h
    simp [Browser.delete_session, h]

/-- C5 witness: 200 gives true, 204 gives true, 404 and 500 raise the
wrapped transport error, a network failure raises it too. -/
theorem claim_C5_witness :
    Browser.delete_session (constNet (.resp 200 none)) exampleClient "s1" = .ok true ∧
    Browser.delete_session (constNet (.resp 204 none)) exampleClient "s1" = .ok true ∧
    Browser.delete_session (constNet (.resp 404 none)) exampleClient "s1" =
      .error (.requestException ("Failed to delete session: " ++ httpErrMsg 404)) ∧
    Browser.delete_session (constNet (.resp 500 none)) exampleClient "s1" =
      .error (.requestException ("Failed to delete session: " ++ httpErrMsg 500)) ∧
    Browser.delete_session (constNet (.netErr "down")) exampleClient "s1" =
      .error (.requestException ("Failed to delete session: " ++ "down")) := by
  refine ⟨?_, ?_, ?_, ?_, ?_⟩
  · exact ((claim_C5_amended (constNet (.resp 200 none)) exampleClient "s1").1
      200 none rfl).mpr (by omega)
  · exact ((claim_C5_amended (constNet (.resp 204 none)) exampleClient "s1").1
      204 none rfl).mpr (by omega)
  · exact (claim_C5_amended (constNet (.resp 404 none)) exampleClient "s1").2.1
      404 none rfl (by omega)
  · exact (claim_C5_amended (constNet (.resp 500 none)) exampleClient "s1").2.1
      500 none rfl (by omega)
  · exact (claim_C5_amended (constNet (.netErr "down")) exampleClient "s1").2.2 "down" rfl

/-- C6: on a 2xx response with a valid JSON body, `health_check` returns
the parsed body of GET `{baseUrl}/health` exactly as received, and
`get_session_logs` returns the parsed body of GET `{baseUrl}/logs/{id}`
unmodified; `get_session_logs` raises the wrapped `RequestException` (the
spec name `TransportError`) when the request fails at the network level. -/
theorem claim_C6 (net : HttpRequest → HttpOutcome) (b : Browser) (sid : String) :
    (∀ st j, net (healthReq b) = .resp st (some j) → 200 ≤ st ∧ st < 300 →
        Browser.health_check net b = .ok j) ∧
    (∀ st j, net (logsReq b sid) = .resp st (some j) → 200 ≤ st ∧ st < 300 →
        Browser.get_session_logs net b sid = .ok j) ∧
    (∀ m, net (logsReq b sid) = .netErr m →
        Browser.get_session_logs net b sid =
          .error (.requestException ("Failed to get session logs: " ++ m))) := by
  refine ⟨?_, ?_, ?_⟩
  · intro st j h hst
    have hrs := raiseForStatus_ok st (by omega)
    simp [Browser.health_check, getJsonTry, h, hrs, wrapRequestException]
  · intro st j h hst
    have hrs := raiseForStatus_ok st (by omega)
    simp [Browser.get_session_logs, getJsonTry, h, hrs, wrapRequestException]
  · intro m h
    simp [Browser.get_session_logs, getJsonTry, h, wrapRequestException,
      PyErr.isRequestException, PyErr.msg]

/-- C6 witness: a concrete health body comes back verbatim, a concrete logs
body comes back verbatim, and an unreachable server raises the wrapped
transport error. -/
theorem claim_C6_witness :
    Browser.health_check (constNet (.resp 200 (some (.obj [("status", .str "ok")]))))
        exampleClient = .ok (.obj [("status", .str "ok")]) ∧
    Browser.get_session_logs (constNet (.resp 200 (some (.arr [.str "line1"]))))
        exampleClient "s1" = .ok (.arr [.str "line1"]) ∧
    Browser.get_session_logs (constNet (.netErr "unreachable")) exampleClient "s1" =
      .error (.requestException ("Failed to get session logs: " ++ "unreachable")) := by
  refine ⟨?_, ?_, ?_⟩
  · exact (claim_C6 (constNet (.resp 200 (some (.obj [("status", .str "ok")]))))
      exampleClient "s1").1 200 (.obj [("status", .str "ok")]) rfl (by omega)
  · exact (claim_C6 (constNet (.resp 200 (some (.arr [.str "line1"]))))
      exampleClient "s1").2.1 200 (.arr [.str "line1"]) rfl (by omega)
  · exact (claim_C6 (constNet (.netErr "unreachable")) exampleClient "s1").2.2
      "unreachable" rfl

/-- C7 counterexample: the claim includes `deleteSession` among the
operations that fail with `MalformedResponseError` on a 2xx response whose
body is not valid JSON, but `delete_session` never parses the body: on a
200 response with an invalid-JSON body it returns true and raises
nothing. -/
theorem claim_C7_counterexample :
    Browser.delete_session (constNet (.resp 200 none)) exampleClient "s1" = .ok true := by
  rfl

/-- C7 amended: on a 2xx response whose body is not valid JSON,
`health_check` and `get_session_logs` fail with the JSON-decode error — a
`ValueError` that is not a `RequestException` (under `requests` before
2.27, whose class hierarchy the spec error taxonomy presupposes), hence
distinct from the `TransportError` of network failures and non-2xx
statuses; the session-create call catches that decode error in its
`except (KeyError, ValueError)` clause and re-raises it as the
`InvalidResponseError` wrapper `ValueError("Invalid response from API:
...")` rather than a distinct malformed-response error; and
`delete_session` never parses the body and returns true. -/
theorem claim_C7_amended (net : HttpRequest → HttpOutcome) (b : Browser)
    (sid pid : String) :
    ((PyErr.jsonDecodeError jsonDecodeMsg).isRequestException = false ∧
     (PyErr.jsonDecodeError jsonDecodeMsg).isValueError = true) ∧
    (∀ st, net (healthReq b) = .resp st none → 200 ≤ st ∧ st < 300 →
        Browser.health_check net b = .error (.jsonDecodeError jsonDecodeMsg)) ∧
    (∀ st, net (logsReq b sid) = .resp st none → 200 ≤ st ∧ st < 300 →
        Browser.get_session_logs net b sid = .error (.jsonDecodeError jsonDecodeMsg)) ∧
    (∀ st, net (instanceReq b pid) = .resp st none → 200 ≤ st ∧ st < 300 →
        (Sessions.create net b pid).1 =
          .error (.valueError ("Invalid response from API: " ++ jsonDecodeMsg))) ∧
    (∀ st, net (deleteReq b sid) = .resp st none → 200 ≤ st ∧ st < 300 →
        Browser.delete_session net b sid = .ok true) := by
  refine ⟨⟨rfl, rfl⟩, ?_, ?_, ?_, ?_⟩
  · intro st h hst
    have hrs := raiseForStatus_ok st (by omega)
    simp [Browser.health_check, getJsonTry, h, hrs, wrapRequestException,
      PyErr.isRequestException]
  · intro st h hst
    have hrs := raiseForStatus_ok st (by omega)
    simp [Browser.get_session_logs, getJsonTry, h, hrs, wrapRequestException,
      PyErr.isRequestException]
  · intro st h hst
    have hrs := raiseForStatus_ok st (by omega)
    simp [Sessions.create, createTry, h, hrs, PyErr.isRequestException,
      PyErr.isValueError, PyErr.msg]
  · intro st h hst
    have hrs := raiseForStatus_ok st (by omega)
    simp [Browser.delete_session, h, hrs]

/-- C7 witness: concrete 200 responses with invalid-JSON bodies for all
four operations. -/
theorem claim_C7_witness :
    Browser.health_check (constNet (.resp 200 none)) exampleClient =
      .error (.jsonDecodeError jsonDecodeMsg) ∧
    Browser.get_session_logs (constNet (.resp 200 none)) exampleClient "s1" =
      .error (.jsonDecodeError jsonDecodeMsg) ∧
    (Sessions.create (constNet (.resp 200 none)) exampleClient "proj").1 =
      .error (.valueError ("Invalid response from API: " ++ jsonDecodeMsg)) ∧
    Browser.delete_session (constNet (.resp 200 none)) exampleClient "s2" = .ok true := by
  refine ⟨?_, ?_, ?_, ?_⟩
  · exact (claim_C7_amended (constNet (.resp 200 none)) exampleClient "s1" "proj").2.1
      200 rfl (by omega)
  · exact (claim_C7_amended (constNet (.resp 200 none)) exampleClient "s1" "proj").2.2.1
      200 rfl (by omega)
  · exact (claim_C7_amended (constNet (.resp 200 none)) exampleClient "s1" "proj").2.2.2.1
      200 rfl (by omega)
  · exact (claim_C7_amended (constNet (.resp 200 none)) exampleClient "s2" "proj").2.2.2.2
      200 rfl (by omega)

theorem schemeChar_not_colon {x : Char} (hx : schemeChar x = true) : (x == ':') = false := by
  by_cases h : x = ':'
  · subst h
    simp [schemeChar] at hx
  · exact beq_eq_false_iff_ne.mpr h

theorem splitSchemeL_of_scheme (s r : List Char)
    (hsh : headAlpha s = true) (hsa : s.all schemeChar = true) :
    splitSchemeL (s ++ ':' :: r) = (s.map Char.toLower, r) := by
  have hno : ∀ x ∈ s, (x == ':') = false := by
    intro x hx
    exact schemeChar_not_colon (by rw [List.all_eq_true] at hsa; exact hsa x hx)
  unfold splitSchemeL
  rw [spanUntil_stop _ ':' r s hno (by simp)]
  simp [hsh, hsa]

theorem splitNetlocL_slashes (l : List Char) :
    splitNetlocL ('/' :: '/' :: l) = spanUntil stopNetloc l := by
  simp [splitNetlocL]

theorem urlparsePath_full (s hn p q : List Char) (u : String)
    (hu : u.data = s ++ ':' :: '/' :: '/' :: (hn ++ '/' :: (p ++ q)))
    (hsh : headAlpha s = true) (hsa : s.all schemeChar = true)
    (hh : ∀ x ∈ hn, stopNetloc x = false)
    (hp : ∀ x ∈ p, (x == '?') = false ∧ (x == '#') = false ∧ (x == ';') = false)
    (hq : q = [] ∨ ∃ q₁, q = '?' :: q₁ ∧ ∀ x ∈ q₁, (x == '#') = false) :
    urlparsePath u = ⟨'/' :: p⟩ := by
  unfold urlparsePath
  rw [hu, splitSchemeL_of_scheme s _ hsh hsa]
  simp only [splitNetlocL_slashes]
  rw [spanUntil_stop stopNetloc '/' (p ++ q) hn hh (by decide)]
  simp only []
  have hnohash : ∀ x ∈ '/' :: (p ++ q), (x == '#') = false := by
    intro x hx
    rcases List.mem_cons.mp hx with h | h
    · subst h; decide
    · rcases List.mem_append.mp h with h | h
      · exact (hp x h).2.1
      · rcases hq with rfl | ⟨q₁, rfl, hq₁⟩
        · simp at h
        · rcases List.mem_cons.mp h with rfl | h
          · decide
          · exact hq₁ x h
  rw [cutAt_nomem '#' _ hnohash]
  have hcutq : cutAt '?' ('/' :: (p ++ q)) = '/' :: p := by
    rcases hq with rfl | ⟨q₁, rfl, _⟩
    · rw [List.append_nil]
      apply cutAt_nomem
      intro x hx
      rcases List.mem_cons.mp hx with h | h
      · subst h; decide
      · exact (hp x h).1
    · have hassoc : '/' :: (p ++ '?' :: q₁) = ('/' :: p) ++ '?' :: q₁ := by simp
      rw [hassoc]
      apply cutAt_mem
      intro x hx
      rcases List.mem_cons.mp hx with h | h
      · subst h; decide
      · exact (hp x h).1
  rw [hcutq]
  have hsp : splitparams ('/' :: p) = '/' :: p := by
    apply splitparams_nomem
    intro x hx
    rcases List.mem_cons.mp hx with h | h
    · subst h; decide
    · exact (hp x h).2.2
  rw [hsp, ite_self]

/-- C3: when the `/json/version` lookup succeeds with a 2xx JSON object
whose `webSocketDebuggerUrl` is a full WebSocket URL of the shape
`scheme://host(:port)/path(?query)`, the constructed Session stores
exactly the path component of that URL — scheme, host, port and query are
discarded.  The URL is given decomposed: `s` the scheme, `hn` the netloc
(host with optional port), `'/' :: p` the path, `q` the (possibly empty)
`?query` part. -/
theorem claim_C3 (net : HttpRequest → HttpOutcome) (b : Browser) (sid : Json)
    (st : Nat) (kvs : List (String × Json)) (u : String) (s hn p q : List Char)
    (hnet : net (wsReq b sid) = .resp st (some (.obj kvs)))
    (hst : 200 ≤ st ∧ st < 300)
    (hlook : lookupLast kvs "webSocketDebuggerUrl" = some (.str u))
    (hu : u.data = s ++ ':' :: '/' :: '/' :: (hn ++ '/' :: (p ++ q)))
    (hsh : headAlpha s = true) (hsa : s.all schemeChar = true)
    (hh : ∀ x ∈ hn, stopNetloc x = false)
    (hp : ∀ x ∈ p, (x == '?') = false ∧ (x == '#') = false ∧ (x == ';') = false)
    (hq : q = [] ∨ ∃ q₁, q = '?' :: q₁ ∧ ∀ x ∈ q₁, (x == '#') = false) :
    Session.construct net sid b = (.ok ⟨sid, some ⟨'/' :: p⟩⟩, [wsReq b sid]) := by
  have hrs := raiseForStatus_ok st (by omega)
  have hpath := urlparsePath_full s hn p q u hu hsh hsa hh hp hq
  have htruthy : Json.truthy (.str u) = true := by
    simp [Json.truthy, hu]
  simp [Session.construct, getWsUrlTry, hnet, hrs, Json.dictGet, hlook, htruthy, hpath]

/-- C3 witness: the full URL of the claim stores exactly the path. -/
theorem claim_C3_witness :
    Session.construct (constNet (.resp 200 (some wsVersionBody))) (.str "s1") exampleClient =
      (.ok ⟨.str "s1", some "/devtools/page/ABC"⟩,
       [wsReq exampleClient (.str "s1")]) :=
  claim_C3 (constNet (.resp 200 (some wsVersionBody))) exampleClient (.str "s1") 200
    [("webSocketDebuggerUrl", .str "ws://host:1234/devtools/page/ABC")]
    "ws://host:1234/devtools/page/ABC" "ws".data "host:1234".data
    "devtools/page/ABC".data []
    rfl (by omega) rfl (by decide) (by decide) (by decide) (by decide) (by decide)
    (Or.inl rfl)

theorem construct_snd (net : HttpRequest → HttpOutcome) (sid : Json) (b : Browser) :
    (Session.construct net sid b).2 = [wsReq b sid] := rfl

theorem create_snd (net : HttpRequest → HttpOutcome) (b : Browser) (pid : String) :
    (Sessions.create net b pid).2 = (createTry net b pid).2 := by
  unfold Sessions.create
  rcases h : createTry net b pid with ⟨r, tr⟩
  cases r with
  | ok s => simp
  | error e =>
    by_cases h1 : e.isRequestException <;> by_cases h2 : e.isValueError <;> simp [h1, h2]

theorem construct_ok_id (net : HttpRequest → HttpOutcome) (sid : Json) (b : Browser)
    (s : Session) (h : (Session.construct net sid b).1 = .ok s) : s.id = sid := by
  unfold Session.construct at h
  cases hg : getWsUrlTry net b sid with
  | ok w =>
    rw [hg] at h
    simp at h
    rw [← h]
  | error e =>
    rw [hg] at h
    by_cases he : e.isRequestException
    · simp [he] at h
      rw [← h]
    · simp [he] at h

theorem truthy_str_of_ne (s : String) (h : s ≠ "") : Json.truthy (.str s) = true := by
  cases s with
  | mk data =>
    cases data with
    | nil => exact absurd rfl h
    | cons c cs => rfl

theorem createTry_filter_post (net : HttpRequest → HttpOutcome) (b : Browser) (pid : String) :
    ((createTry net b pid).2).filter (fun r => r.method == "POST") = [instanceReq b pid] := by
  have h1 : ((instanceReq b pid).method == "POST") = true := rfl
  unfold createTry
  cases hn : net (instanceReq b pid) with
  | netErr m => simp [hn, List.filter, h1]
  | resp st body =>
    cases hrs : raiseForStatus st with
    | error e => simp [hn, hrs, List.filter, h1]
    | ok u =>
      cases body with
      | none => simp [hn, hrs, List.filter, h1]
      | some data =>
        cases hd : Json.dictGet data "session_id" with
        | error e => simp [hn, hrs, hd, List.filter, h1]
        | ok sidOpt =>
          cases sidOpt with
          | none => simp [hn, hrs, hd, List.filter, h1]
          | some sid =>
            by_cases ht : sid.truthy
            · have h2 : ((wsReq b sid).method == "POST") = false := rfl
              rcases hC : Session.construct net sid b with ⟨r, tr⟩
              have htr : tr = [wsReq b sid] := by
                have hs := construct_snd net sid b
                rw [hC] at hs
                exact hs
              subst htr
              simp [hn, hrs, hd, ht, hC, List.filter, h1, h2]
            · simp [hn, hrs, hd, ht, List.filter, h1]

theorem list_isEmpty_mid (s t : List Char) (c : Char) :
    (s ++ c :: t).isEmpty = false := by
  cases s <;> rfl

theorem urljoin_instance (s hn : List Char) (base : String)
    (hbase : base.data = s ++ ':' :: '/' :: '/' :: hn)
    (hsh : headAlpha s = true) (hsa : s.all schemeChar = true)
    (hlow : s.map Char.toLower = s)
    (hrel : usesRelative s = true)
    (hh : ∀ x ∈ hn, stopNetloc x = false) (hne : hn ≠ []) :
    urljoin base "/instance" = base ++ "/instance" := by
  have hsne : s ≠ [] := by
    intro h
    rw [h] at hsh
    exact absurd hsh (by decide)
  have hbne : base.data.isEmpty = false := by
    rw [hbase]
    exact list_isEmpty_mid s _ ':'
  have hnem : hn.isEmpty = false := by
    cases hn
    · exact absurd rfl hne
    · rfl
  have hsem : s.isEmpty = false := by
    cases s
    · exact absurd rfl hsne
    · rfl
  have hscheme : splitSchemeL base.data = (s, '/' :: '/' :: hn) := by
    rw [hbase, splitSchemeL_of_scheme s _ hsh hsa, hlow]
  have hnet : splitNetlocL ('/' :: '/' :: hn) = (hn, []) := by
    rw [splitNetlocL_slashes]
    exact spanUntil_nostop stopNetloc hn hh
  unfold urljoin
  rw [hbne]
  simp only [Bool.false_eq_true, if_false]
  rw [hscheme]
  simp only []
  rw [hnet]
  simp only [hrel, hsem, hnem]
  have hcf : cutAt '#' ("/instance" : String).data = ("/instance" : String).data := rfl
  have haf : afterFirst '#' ("/instance" : String).data = [] := rfl
  have haq : afterFirst '?' ("/instance" : String).data = [] := rfl
  have hcq : cutAt '?' ("/instance" : String).data = ("/instance" : String).data := rfl
  have hpar : paramsOf ("/instance" : String).data = [] := rfl
  have hsp : splitparams ("/instance" : String).data = ("/instance" : String).data := rfl
  rw [hcf, haf, haq, hcq, hpar, hsp, ite_self, ite_self]
  have hseg :
      (match joinWith '/'
          (resolveSegs [] (splitOnChar '/' ("/instance" : String).data) ++
            (if lastIsDotSeg (splitOnChar '/' ("/instance" : String).data) then [[]] else [])) with
        | [] => ['/']
        | l => l) = ("/instance" : String).data := rfl
  rw [hseg]
  simp only [List.isEmpty_nil, Bool.not_false, Bool.true_or, if_true]
  have hhead : (("/instance" : String).data.head? == some '/') = true := rfl
  rw [hhead]
  simp only [if_true]
  apply String.ext
  rw [String.data_append, hbase]
  simp [List.append_assoc]

/-- C1 counterexample: the claim promises a Session whenever the POST
succeeds and its JSON carries a non-empty `session_id`, but the Session
constructor runs inside the same `try`: here the POST returns a perfect
`session_id` and the `/json/version` lookup returns 200 with the valid JSON
body `1`, on which `data.get` raises an `AttributeError` that neither
`except` clause catches — `Sessions.create` raises instead of returning a
Session. -/
theorem claim_C1_counterexample :
    (Sessions.create
        (postSplitNet (.resp 200 (some createdBody)) (.resp 200 (some (.num 1))))
        exampleClient "proj").1 =
      .error (.attributeError "object has no attribute get") := by
  rfl

/-- C1 amended: for every projectId, `Sessions.create` issues exactly one
POST — to `urljoin baseUrl "/instance"`, which is literally
`{baseUrl}/instance` whenever baseUrl has the shape
`scheme://host` with a lowercase scheme in `uses_relative` — with JSON body
`(project_id, api_key)`; and whenever the POST succeeds with 2xx and its
JSON object carries a non-empty `session_id` string, and the embedded
debugger-URL lookup completes without raising (which a 2xx non-object
`/json/version` body can violate, see the counterexample), it returns that
constructed Session, whose id equals the `session_id` value. -/
theorem claim_C1_amended (net : HttpRequest → HttpOutcome) (b : Browser) (pid : String) :
    ((Sessions.create net b pid).2.filter (fun r => r.method == "POST") =
      [instanceReq b pid]) ∧
    ((instanceReq b pid).method = "POST" ∧
     (instanceReq b pid).url = urljoin b.base_url "/instance" ∧
     (instanceReq b pid).jsonBody =
       some (.obj [("project_id", .str pid), ("api_key", .str b.api_key)])) ∧
    (∀ s hn, headAlpha s = true → s.all schemeChar = true → s.map Char.toLower = s →
        usesRelative s = true → (∀ x ∈ hn, stopNetloc x = false) → hn ≠ [] →
        b.base_url.data = s ++ ':' :: '/' :: '/' :: hn →
        (instanceReq b pid).url = b.base_url ++ "/instance") ∧
    (∀ st kvs sid sess,
        net (instanceReq b pid) = .resp st (some (.obj kvs)) →
        200 ≤ st ∧ st < 300 →
        lookupLast kvs "session_id" = some (.str sid) →
        sid ≠ "" →
        (Session.construct net (.str sid) b).1 = .ok sess →
        (Sessions.create net b pid).1 = .ok sess ∧ sess.id = .str sid) := by
  refine ⟨?_, ⟨rfl, rfl, rfl⟩, ?_, ?_⟩
  · rw [create_snd]
    exact createTry_filter_post net b pid
  · intro s hn h1 h2 h3 h4 h5 h6 h7
    show urljoin b.base_url "/instance" = b.base_url ++ "/instance"
    exact urljoin_instance s hn b.base_url h7 h1 h2 h3 h4 h5 h6
  · intro st kvs sid sess hnet hst hlook hne hC
    have hrs := raiseForStatus_ok st (by omega)
    have htr := truthy_str_of_ne sid hne
    have hid := construct_ok_id net (.str sid) b sess hC
    refine ⟨?_, hid⟩
    rcases hCC : Session.construct net (.str sid) b with ⟨r, tr⟩
    have hr : r = .ok sess := by
      rw [hCC] at hC
      exact hC
    subst hr
    simp [Sessions.create, createTry, hnet, hrs, Json.dictGet, hlook, htr, hCC]

/-- C1 witness: a successful creation issues exactly one POST whose URL is
the base url followed by `/instance`, and returns the Session with the
returned id. -/
theorem claim_C1_witness :
    ((Sessions.create
        (postSplitNet (.resp 200 (some createdBody)) (.resp 200 (some wsVersionBody)))
        exampleClient "proj").2.filter (fun r => r.method == "POST") =
      [instanceReq exampleClient "proj"]) ∧
    (instanceReq exampleClient "proj").url = exampleClient.base_url ++ "/instance" ∧
    (Sessions.create
        (postSplitNet (.resp 200 (some createdBody)) (.resp 200 (some wsVersionBody)))
        exampleClient "proj").1 =
      .ok ⟨.str "abc", some "/devtools/page/ABC"⟩ := by
  obtain ⟨hA, _, hCpart, hD⟩ :=
    claim_C1_amended
      (postSplitNet (.resp 200 (some createdBody)) (.resp 200 (some wsVersionBody)))
      exampleClient "proj"
  refine ⟨hA, ?_, ?_⟩
  · exact hCpart "https".data "freelw.cc".data (by decide) (by decide) (by decide)
      (by decide) (by decide) (by decide) rfl
  · exact (hD 200 [("session_id", .str "abc")] "abc"
      ⟨.str "abc", some "/devtools/page/ABC"⟩ rfl (by omega) rfl (by decide) rfl).1
